import Mathlib

/-!
# Formal model of `turno-penitenciario` (`main.py`)

A shallow embedding of the timing, retry and polling logic of the
visit-scheduling bot, together with proofs of the behavioural properties
stated in the design specification.

Conventions of the embedding:
* A local wall-clock point (`datetime` with the fixed Argentina timezone) is
  an `Instante`: a day number plus microseconds within the day, compared
  lexicographically.  `timedelta(days = 1)` is `dia + 1` with the
  time-of-day unchanged.
* `time.time()` readings are an abstract stream `reloj : Nat → Int`
  (seconds); browser and network outcomes are abstract streams of booleans.
* Python exceptions that escape a function are `Except.error`; a caught
  exception is ordinary control flow inside the definition.
* Unbounded `while True` loops take a fuel argument; `none` means the fuel
  ran out, and every theorem supplies enough fuel.
-/

/-- Total process budget in seconds (`TIMEOUT_TOTAL = 900`). -/
def TIMEOUT_TOTAL : Int := 900

/-- Budget in seconds for the availability poll (`MAX_ESPERA_TURNOS = 300`). -/
def MAX_ESPERA_TURNOS : Int := 300

/-- Seconds between availability polls (`INTERVALO_RECARGA = 5`). -/
def INTERVALO_RECARGA : Nat := 5

/-- Default retry bound for navigation (`MAX_REINTENTOS_NAVEGACION = 5`). -/
def MAX_REINTENTOS_NAVEGACION : Nat := 5

/-- Fixed applicant data (`DATOS` in `main.py`). -/
def DATOS_nombre : String := "Paola Fabiana"

def DATOS_apellido : String := "Veron"

def DATOS_documento : String := "24470091"

def DATOS_unidad : String := "Unidad 16, PEREZ"

def DATOS_menores : String := "0"

/-- Microseconds in one hour. -/
def usPorHora : Nat := 3600000000

/-- A timezone-aware local instant: day number (days since some epoch in the
fixed timezone) and microseconds elapsed within that day. -/
structure Instante where
  dia : Nat
  us : Nat
  deriving DecidableEq, Repr

/-- Strict order on instants (Python `datetime <`), lexicographic. -/
def Instante.ltb (a b : Instante) : Bool :=
  if a.dia = b.dia then decide (a.us < b.us)
  else decide (a.dia < b.dia)

/-- Non-strict order on instants (Python `datetime <=`), lexicographic. -/
def Instante.leb (a b : Instante) : Bool :=
  if a.dia = b.dia then decide (a.us ≤ b.us)
  else decide (a.dia < b.dia)

/-- `datetime.hour` of the instant. -/
def Instante.hora (t : Instante) : Nat := t.us / usPorHora

/-- `datetime(year, month, day, h, m, s)` on the same calendar day. -/
def Instante.deHMS (dia h m s : Nat) : Instante :=
  ⟨dia, ((h * 60 + m) * 60 + s) * 1000000⟩

/-- Digit value of an ASCII digit character. -/
def valorDigito (c : Char) : Nat := c.toNat - 48

/-- Tail of a Python decimal literal: digits, with a single `_` allowed
between two digits (as accepted by `int()`). -/
def leerDigitosResto (acc : Nat) : List Char → Option Nat
  | [] => some acc
  | '_' :: c :: resto =>
      if c.isDigit then leerDigitosResto (acc * 10 + valorDigito c) resto else none
  | ['_'] => none
  | c :: resto =>
      if c.isDigit then leerDigitosResto (acc * 10 + valorDigito c) resto else none

/-- A nonempty run of digits (first character must be a digit). -/
def leerDigitos : List Char → Option Nat
  | [] => none
  | c :: resto =>
      if c.isDigit then leerDigitosResto (valorDigito c) resto else none

/-- Whitespace characters stripped by Python `int()` around a literal. -/
def esEspacio (c : Char) : Bool :=
  c = ' ' || c = '\t' || c = '\n' || c = '\r' || c = '\x0b' || c = '\x0c'

/-- Strip leading and trailing whitespace (Python `str.strip()`). -/
def pyStrip (l : List Char) : List Char :=
  ((l.dropWhile esEspacio).reverse.dropWhile esEspacio).reverse

/-- Model of Python `int(str)`: optional surrounding whitespace, optional
sign, then ASCII digits with `_` grouping.  `none` is a `ValueError`. -/
def pyInt (s : String) : Option Int :=
  match pyStrip s.data with
  | '-' :: resto => (leerDigitos resto).map (fun n => -(n : Int))
  | '+' :: resto => (leerDigitos resto).map (fun n => (n : Int))
  | l => (leerDigitos l).map (fun n => (n : Int))

/-- Split a character list at every `:` (Python `split(":")`: `""` gives
`[""]`, separators at the ends give empty segments). -/
def segmentos : List Char → List (List Char)
  | [] => [[]]
  | c :: resto =>
    let r := segmentos resto
    if c = ':' then [] :: r
    else
      match r with
      | [] => [[c]]
      | seg :: rs => (c :: seg) :: rs

/-- Python `s.split(":")`. -/
def pySplitColon (s : String) : List String :=
  (segmentos s.data).map String.mk

/-- Outcome of parsing the `HORA_OBJETIVO` override inside
`obtener_hora_objetivo`: the parsed time of day, a `ValueError` (raised by
`int()` or by the `datetime` constructor and caught by the handler), or the
`IndexError` raised by `partes[1]` when the string has no `:` (not caught). -/
inductive ParseHora where
  | ok (h m s : Nat)
  | valueError
  | indexError
  deriving DecidableEq, Repr

/-- The parsing steps of the override branch of `obtener_hora_objetivo`:
`partes = s.split(":")`; `hora = int(partes[0])`; `minuto = int(partes[1])`;
`segundo = int(partes[2]) if len(partes) >= 3 else 0`; then the range checks
done by the `datetime` constructor. -/
def parseHora (s : String) : ParseHora :=
  let partes := pySplitColon s
  match pyInt (partes.headD "") with
  | none => .valueError
  | some hora =>
    match partes[1]? with
    | none => .indexError
    | some p1 =>
      match pyInt p1 with
      | none => .valueError
      | some minuto =>
        match (if 3 ≤ partes.length then pyInt ((partes[2]?).getD "") else some 0) with
        | none => .valueError
        | some segundo =>
          if 0 ≤ hora ∧ hora ≤ 23 ∧ 0 ≤ minuto ∧ minuto ≤ 59 ∧ 0 ≤ segundo ∧ segundo ≤ 59
          then .ok hora.toNat minuto.toNat segundo.toNat
          else .valueError

/-- Result of `obtener_hora_objetivo`: the returned target instant, plus
whether the fallback warning (`HORA_OBJETIVO inválida`) was printed. -/
structure ObjetivoSalida where
  objetivo : Instante
  aviso : Bool
  deriving DecidableEq, Repr

/-- The default branch of `obtener_hora_objetivo`: 00:00:01 of tomorrow when
the current local hour is ≥ 12, of today otherwise. -/
def medianochePorDefecto (ahora : Instante) : Instante :=
  if 12 ≤ ahora.hora then ⟨ahora.dia + 1, 1000000⟩ else ⟨ahora.dia, 1000000⟩

/-- `obtener_hora_objetivo` from `main.py`.  `hora_objetivo_env` is the
`HORA_OBJETIVO` environment value (`none` = unset; the empty string is falsy
in the `if hora_objetivo_env:` guard).  An `Except.error` is an exception
escaping the function (only the `IndexError` of `partes[1]` can). -/
def obtener_hora_objetivo (ahora : Instante) (hora_objetivo_env : Option String) :
    Except String ObjetivoSalida :=
  match hora_objetivo_env with
  | none => .ok ⟨medianochePorDefecto ahora, false⟩
  | some s =>
    if s = "" then .ok ⟨medianochePorDefecto ahora, false⟩
    else
      match parseHora s with
      | .indexError => .error "IndexError: list index out of range"
      | .valueError => .ok ⟨medianochePorDefecto ahora, true⟩
      | .ok h m seg =>
        let objetivo := Instante.deHMS ahora.dia h m seg
        if objetivo.leb ahora then .ok ⟨⟨objetivo.dia + 1, objetivo.us⟩, false⟩
        else .ok ⟨objetivo, false⟩

/-- `calcular_proximo_miercoles`, over day numbers.  The epoch is a Monday,
so `dia % 7` is Python `weekday()` (Monday = 0, Wednesday = 2).
`(2 - weekday) % 7` in Python arithmetic equals `(9 - dia % 7) % 7`. -/
def calcular_proximo_miercoles (dia : Nat) : Nat :=
  let dias_hasta_miercoles := (9 - dia % 7) % 7
  let dias_hasta_miercoles :=
    if dias_hasta_miercoles = 0 then 7 else dias_hasta_miercoles
  dia + dias_hasta_miercoles

/-- A calendar date, as rendered by `strftime`. -/
structure Fecha where
  anio : Nat
  mes : Nat
  dia : Nat
  deriving DecidableEq, Repr

/-- Zero-pad a number to two digits (`%d`, `%m`). -/
def pad2 (n : Nat) : String :=
  if n < 10 then "0" ++ toString n else toString n

/-- Zero-pad a number to four digits (`%Y`, for the years in use). -/
def pad4 (n : Nat) : String :=
  if n < 10 then "000" ++ toString n
  else if n < 100 then "00" ++ toString n
  else if n < 1000 then "0" ++ toString n
  else toString n

/-- `strftime("%d/%m/%Y")`. -/
def Fecha.ddmmyyyy (f : Fecha) : String :=
  pad2 f.dia ++ "/" ++ pad2 f.mes ++ "/" ++ pad4 f.anio

/-- `strftime("%Y-%m-%d")` (ISO form used for the date input and the
availability comparison). -/
def Fecha.iso (f : Fecha) : String :=
  pad4 f.anio ++ "-" ++ pad2 f.mes ++ "-" ++ pad2 f.dia

/-- One observable call on the browser page handle. -/
inductive AccionPagina where
  | goto (url : String)
  | waitForSelector (sel : String)
  | fill (campo valor : String)
  | selectOption (sel valor : String)
  | click (sel : String)
  | screenshot
  deriving DecidableEq, Repr

/-- Whether an action is a navigation (`page.goto`). -/
def AccionPagina.esGoto : AccionPagina → Bool
  | .goto _ => true
  | _ => false

/-- `preparar_formulario` from `main.py`: the sequence of page actions it
performs, in source order, and the returned `fecha_str`
(`strftime('%d/%m/%Y')`).  It only fills fields and selects options on the
already-loaded page. -/
def preparar_formulario (fecha_visita : Fecha) : List AccionPagina × String :=
  ([ .fill "Nombre*" DATOS_nombre,
     .fill "Apellido*" DATOS_apellido,
     .fill "input[type=date]" fecha_visita.iso,
     .fill "DOCUMENTO*" DATOS_documento,
     .selectOption "select.nth(1)" DATOS_menores ],
   fecha_visita.ddmmyyyy)

/-- Decision taken by `esperar_hasta_hora_objetivo` on the remaining
seconds to the target: return at once, raise the configuration error, or
enter the coarse/fine waiting loops. -/
inductive EsperaDecision where
  | inmediato
  | errorConfig
  | espera
  deriving DecidableEq, Repr

/-- The branch structure of `esperar_hasta_hora_objetivo` (lines 81-87 of
`main.py`): `segundos_restantes <= 0` returns immediately; otherwise
`segundos_restantes > 300` raises; otherwise the function waits. -/
def decidir_espera (segundos_restantes : ℚ) : EsperaDecision :=
  if segundos_restantes ≤ 0 then .inmediato
  else if 300 < segundos_restantes then .errorConfig
  else .espera

/-- The production-mode prefix of `run()`: `esperar_hasta_hora_objetivo` is
called before the browser is ever launched, so when it raises, the run ends
with no page action at all.  `accionesNavegador` abstracts everything the
browser phase would do. -/
def run_secuencia (modo_test : Bool) (segundos_restantes : ℚ)
    (accionesNavegador : List AccionPagina) : Except String (List AccionPagina) :=
  if modo_test then .ok accionesNavegador
  else
    match decidir_espera segundos_restantes with
    | .errorConfig => .error "Demasiado tiempo de espera"
    | _ => .ok accionesNavegador

/-- Outcome of `navegar_con_reintentos`: success (`return True`), the
terminal exception naming the attempt bound, or the fall-through `return
None` when `max_reintentos = 0` gives an empty `range`. -/
inductive NavResultado where
  | exito
  | excepcion (intentos : Nat)
  | sinIntentos
  deriving DecidableEq, Repr

/-- Trace of one `navegar_con_reintentos` call: outcome, number of page-load
attempts performed, and the backoff sleeps in order. -/
structure NavTrace where
  resultado : NavResultado
  intentos : Nat
  esperas : List Nat
  deriving DecidableEq, Repr

/-- The `for intento in range(1, max_reintentos + 1)` loop of
`navegar_con_reintentos`.  `carga intento` tells whether the `intento`-th
load attempt (the `page.goto` plus the `wait_for_selector` readiness check)
succeeds.  On failure with attempts left it sleeps `min(2 ** intento, 15)`
and retries; on the last failure it raises naming `max_reintentos`. -/
def navegar_go (carga : Nat → Bool) (max_reintentos intento fuel : Nat) : NavTrace :=
  match fuel with
  | 0 => ⟨.sinIntentos, 0, []⟩
  | fuel + 1 =>
    if carga intento then ⟨.exito, 1, []⟩
    else if intento < max_reintentos then
      let r := navegar_go carga max_reintentos (intento + 1) fuel
      ⟨r.resultado, r.intentos + 1, min (2 ^ intento) 15 :: r.esperas⟩
    else ⟨.excepcion max_reintentos, 1, []⟩

/-- `navegar_con_reintentos` from `main.py` (attempts start at 1; the
`range` has exactly `max_reintentos` iterations, so that much fuel is
enough). -/
def navegar_con_reintentos (carga : Nat → Bool) (max_reintentos : Nat) : NavTrace :=
  navegar_go carga max_reintentos 1 max_reintentos

/-- Python string `>=`, on the underlying character lists: the first
differing code point decides, and a proper prefix is smaller. -/
def geChars : List Char → List Char → Bool
  | _, [] => true
  | [], _ :: _ => false
  | a :: as, b :: bs =>
    if b < a then true
    else if a < b then false
    else geChars as bs

/-- Python `a >= b` on strings (lexicographic by code point). -/
def pyStrGe (a b : String) : Bool := geChars a.data b.data

/-- The availability test of `esperar_turnos_disponibles` (line 250 of
`main.py`): `max_attr is None or max_attr >= fecha_objetivo`. -/
def fechaPermitida (max_attr : Option String) (fecha_objetivo : String) : Bool :=
  match max_attr with
  | none => true
  | some m => pyStrGe m fecha_objetivo

/-- Outcome of `esperar_turnos_disponibles`: the returned boolean, or the
exception propagated from `navegar_con_reintentos` inside
`cargar_pagina_y_seleccionar_unidad`. -/
inductive TurnosResultado where
  | disponibles
  | agotado
  | navExcepcion
  deriving DecidableEq, Repr

/-- Trace of one `esperar_turnos_disponibles` call: outcome, number of reads
of the `max` attribute performed, and number of inter-poll sleeps. -/
structure TurnosTrace where
  resultado : TurnosResultado
  lecturas : Nat
  esperas : Nat
  deriving DecidableEq, Repr

/-- The `while True` loop of `esperar_turnos_disponibles`.  Iteration `i`
(1-based `intento`): reload and select the unit (`nav i`; a `false` is the
terminal exception of the navigator, which propagates), read the `max`
attribute (`maxAttr i`), return `True` if the target date is allowed;
otherwise read the clock (`reloj cIdx`, one reading per failed iteration,
reading 0 being `inicio`), return `False` once the 300 s budget is spent,
else sleep `INTERVALO_RECARGA` and loop. -/
def esperar_go (nav : Nat → Bool) (maxAttr : Nat → Option String) (reloj : Nat → Int)
    (fecha_objetivo : String) (inicio : Int) (intento cIdx fuel : Nat) :
    Option TurnosTrace :=
  match fuel with
  | 0 => none
  | fuel + 1 =>
    let i := intento + 1
    if nav i = false then some ⟨.navExcepcion, 0, 0⟩
    else if fechaPermitida (maxAttr i) fecha_objetivo then some ⟨.disponibles, 1, 0⟩
    else if MAX_ESPERA_TURNOS ≤ reloj cIdx - inicio then some ⟨.agotado, 1, 0⟩
    else
      match esperar_go nav maxAttr reloj fecha_objetivo inicio i (cIdx + 1) fuel with
      | none => none
      | some r => some ⟨r.resultado, r.lecturas + 1, r.esperas + 1⟩

/-- `esperar_turnos_disponibles` from `main.py`: `inicio = time.time()` is
clock reading 0, and the loop starts at `intento = 0`, clock index 1. -/
def esperar_turnos_disponibles (nav : Nat → Bool) (maxAttr : Nat → Option String)
    (reloj : Nat → Int) (fecha_objetivo : String) (fuel : Nat) : Option TurnosTrace :=
  esperar_go nav maxAttr reloj fecha_objetivo (reloj 0) 0 1 fuel

/-- Trace of one `enviar_formulario_con_reintentos` call: `resultado` is
`some i` when the download of attempt `i` produced the PDF and `none` for
the time-budget `return None`; `intentos` counts submit attempts (clicks)
performed; `esperas` lists the backoff sleeps. -/
structure EnvioTrace where
  resultado : Option Nat
  intentos : Nat
  esperas : List Nat
  deriving DecidableEq, Repr

/-- The `while True` loop of `enviar_formulario_con_reintentos`.  Each
iteration: bump `intento`, read the clock (`reloj cIdx`); if the elapsed
time has reached `TIMEOUT_TOTAL`, `return None` with no further submit
attempt.  Otherwise click submit and await the download (`descarga intento`);
on success save the PDF and return.  On failure, take a screenshot
(best-effort), read the clock again; with time remaining sleep
`min(2 ** min(intento, 4), 15)`, reload and refill, and loop; with no time
remaining, `return None`. -/
def enviar_go (reloj : Nat → Int) (descarga : Nat → Bool) (inicio : Int)
    (intento cIdx fuel : Nat) : Option EnvioTrace :=
  match fuel with
  | 0 => none
  | fuel + 1 =>
    let i := intento + 1
    if TIMEOUT_TOTAL ≤ reloj cIdx - inicio then some ⟨none, 0, []⟩
    else if descarga i then some ⟨some i, 1, []⟩
    else if reloj (cIdx + 1) - inicio < TIMEOUT_TOTAL then
      match enviar_go reloj descarga inicio i (cIdx + 2) fuel with
      | none => none
      | some r => some ⟨r.resultado, r.intentos + 1, min (2 ^ min i 4) 15 :: r.esperas⟩
    else some ⟨none, 1, []⟩

/-- `enviar_formulario_con_reintentos` from `main.py`: `inicio =
time.time()` is clock reading 0, the loop starts at `intento = 0`, clock
index 1. -/
def enviar_formulario_con_reintentos (reloj : Nat → Int) (descarga : Nat → Bool)
    (fuel : Nat) : Option EnvioTrace :=
  enviar_go reloj descarga (reloj 0) 0 1 fuel

/-- Python truthiness of an optional environment string: `None` and the
empty string are falsy. -/
def pyTruthy : Option String → Bool
  | none => false
  | some s => !(s == "")

/-- One observable step of `enviar_email`. -/
inductive EmailAccion where
  | leerPdf (ruta : String)
  | enviarA (destinatario : String)
  deriving DecidableEq, Repr

/-- `enviar_email` from `main.py`: when either credential is missing or
empty it returns `False` at once, performing no action; otherwise it reads
the PDF, splits `EMAIL_DESTINATARIO` on commas, strips each address, sends
to each one independently (`envio i` is the success of the `i`-th send;
failures are caught and only logged) and returns whether at least one send
succeeded. -/
def enviar_email (apiKey destinatarioEnv : Option String) (pdf_path : String)
    (envio : Nat → Bool) : Bool × List EmailAccion :=
  if !pyTruthy apiKey || !pyTruthy destinatarioEnv then (false, [])
  else
    let destinatarios := ((destinatarioEnv.getD "").splitOn ",").map String.trim
    let exitos := (List.range destinatarios.length).countP (fun i => envio i)
    (decide (0 < exitos),
     .leerPdf pdf_path :: destinatarios.map EmailAccion.enviarA)

/-! ## Helper lemmas -/

/-- Splitting off the first element of a backoff list built over
`List.range`. -/
lemma rango_sucesor_min (b N : Nat) :
    (List.range (N + 1)).map (fun j => min (2 ^ (b + j)) 15) =
      min (2 ^ b) 15 :: (List.range N).map (fun j => min (2 ^ (b + 1 + j)) 15) := by
  rw [List.range_succ_eq_map, List.map_cons, List.map_map]
  refine congrArg₂ _ (by simp) ?_
  refine List.map_congr_left fun j hj => ?_
  simp only [Function.comp_apply]
  congr 2
  omega

/-- Run of `navegar_go` when the attempts starting at `intento` fail `N`
times and then succeed. -/
lemma navegar_go_exito (carga : Nat → Bool) (max_r : Nat) :
    ∀ N intento fuel, N + 1 ≤ fuel → intento + N ≤ max_r →
    (∀ k, intento ≤ k → k < intento + N → carga k = false) →
    carga (intento + N) = true →
    navegar_go carga max_r intento fuel =
      ⟨.exito, N + 1, (List.range N).map (fun j => min (2 ^ (intento + j)) 15)⟩ := by
  intro N
  induction N with
  | zero =>
    intro intento fuel hfuel hmax hfail hok
    obtain ⟨f, rfl⟩ : ∃ f, fuel = f + 1 := ⟨fuel - 1, by omega⟩
    unfold navegar_go
    simp only [Nat.add_zero] at hok
    simp [hok]
  | succ N ih =>
    intro intento fuel hfuel hmax hfail hok
    obtain ⟨f, rfl⟩ : ∃ f, fuel = f + 1 := ⟨fuel - 1, by omega⟩
    have hc : carga intento = false := hfail intento (le_refl _) (by omega)
    have hlt : intento < max_r := by omega
    unfold navegar_go
    rw [hc]
    simp only [Bool.false_eq_true, if_false, if_pos hlt]
    rw [ih (intento + 1) f (by omega) (by omega)
      (fun k hk1 hk2 => hfail k (by omega) (by omega)) (by rw [← hok]; congr 1; omega)]
    rw [rango_sucesor_min]

/-- Run of `navegar_go` when every attempt from `intento` up to the bound
fails: the exception is raised on the last attempt. -/
lemma navegar_go_fracaso (carga : Nat → Bool) (max_r : Nat) :
    ∀ fuel intento, 1 ≤ intento → intento ≤ max_r → max_r - intento + 1 ≤ fuel →
    (∀ k, intento ≤ k → k ≤ max_r → carga k = false) →
    navegar_go carga max_r intento fuel =
      ⟨.excepcion max_r, max_r - intento + 1,
        (List.range (max_r - intento)).map (fun j => min (2 ^ (intento + j)) 15)⟩ := by
  intro fuel
  induction fuel with
  | zero => intro intento h1 h2 h3 _; omega
  | succ f ih =>
    intro intento h1 h2 hfuel hfail
    have hc : carga intento = false := hfail intento (le_refl _) h2
    unfold navegar_go
    rw [hc]
    simp only [Bool.false_eq_true, if_false]
    by_cases hlt : intento < max_r
    · rw [if_pos hlt]
      rw [ih (intento + 1) (by omega) (by omega) (by omega)
        (fun k hk1 hk2 => hfail k (by omega) hk2)]
      have hn : max_r - intento = (max_r - (intento + 1)) + 1 := by omega
      rw [hn, rango_sucesor_min]
    · rw [if_neg hlt]
      have he : intento = max_r := by omega
      have h0 : max_r - intento = 0 := by omega
      rw [h0]
      simp [he]

/-- Run of `esperar_go` when the reads after `intento = t` miss `n` times
and hit on the next one, with the budget never expiring in between. -/
lemma esperar_go_disponibles (nav : Nat → Bool) (maxAttr : Nat → Option String)
    (reloj : Nat → Int) (objetivo : String) (inicio : Int) :
    ∀ n t fuel, n + 1 ≤ fuel →
    (∀ j, t + 1 ≤ j → j ≤ t + n + 1 → nav j = true) →
    (∀ j, t + 1 ≤ j → j ≤ t + n → fechaPermitida (maxAttr j) objetivo = false) →
    fechaPermitida (maxAttr (t + n + 1)) objetivo = true →
    (∀ j, t + 1 ≤ j → j ≤ t + n → reloj j - inicio < MAX_ESPERA_TURNOS) →
    esperar_go nav maxAttr reloj objetivo inicio t (t + 1) fuel =
      some ⟨.disponibles, n + 1, n⟩ := by
  intro n
  induction n with
  | zero =>
    intro t fuel hfuel hnav hmiss hhit hreloj
    obtain ⟨f, rfl⟩ : ∃ f, fuel = f + 1 := ⟨fuel - 1, by omega⟩
    unfold esperar_go
    have h1 : nav (t + 1) = true := hnav (t + 1) (le_refl _) (by omega)
    simp only [Nat.add_zero] at hhit
    simp [h1, hhit]
  | succ n ih =>
    intro t fuel hfuel hnav hmiss hhit hreloj
    obtain ⟨f, rfl⟩ : ∃ f, fuel = f + 1 := ⟨fuel - 1, by omega⟩
    have h1 : nav (t + 1) = true := hnav (t + 1) (le_refl _) (by omega)
    have h2 : fechaPermitida (maxAttr (t + 1)) objetivo = false :=
      hmiss (t + 1) (le_refl _) (by omega)
    have h3 : ¬ MAX_ESPERA_TURNOS ≤ reloj (t + 1) - inicio := by
      have := hreloj (t + 1) (le_refl _) (by omega)
      omega
    simp only [esperar_go, h1, h2, h3, Bool.true_eq_false, Bool.false_eq_true,
      if_false, ite_false]
    rw [ih (t + 1) f (by omega)
      (fun j hj1 hj2 => hnav j (by omega) (by omega))
      (fun j hj1 hj2 => hmiss j (by omega) (by omega))
      (by rw [← hhit]; congr 2; omega)
      (fun j hj1 hj2 => hreloj j (by omega) (by omega))]

/-- `geChars a b` decides exactly the absence of a lexicographic
`List.Lex (· < ·)` step from `a` to `b`. -/
lemma geChars_iff_no_lex : ∀ (a b : List Char),
    geChars a b = true ↔ ¬ List.Lex (· < ·) a b := by
  intro a
  induction a with
  | nil =>
    intro b
    cases b with
    | nil => exact iff_of_true rfl (fun h => by cases h)
    | cons y bs =>
      refine iff_of_false (by simp [geChars]) (not_not_intro List.Lex.nil)
  | cons x as ih =>
    intro b
    cases b with
    | nil => exact iff_of_true rfl (List.Lex.not_nil_right _ _)
    | cons y bs =>
      unfold geChars
      by_cases h1 : y < x
      · refine iff_of_true (by simp [h1]) ?_
        intro hlex
        cases hlex with
        | cons h => exact absurd h1 (lt_irrefl _)
        | rel h => exact absurd h (lt_asymm h1)
      · by_cases h2 : x < y
        · refine iff_of_false (by simp [h1, h2]) (not_not_intro (List.Lex.rel h2))
        · have hxy : x = y := le_antisymm (not_lt.mp h1) (not_lt.mp h2)
          subst hxy
          rw [if_neg h1, if_neg h2, ih bs]
          exact not_congr (List.Lex.cons_iff).symm

/-- The strict order on `String` is lexicographic on the character lists. -/
lemma string_lt_iff_lex (a b : String) : a < b ↔ List.Lex (· < ·) a.data b.data := by
  rw [String.lt_iff_toList_lt]
  exact Iff.rfl

/-- `pyStrGe` (the Python `>=` used on the `max` attribute) agrees with the
order on `String`. -/
lemma pyStrGe_iff_le (a b : String) : pyStrGe a b = true ↔ b ≤ a := by
  rw [← not_lt, string_lt_iff_lex]
  exact geChars_iff_no_lex a.data b.data

/-- The no-override branch of `obtener_hora_objetivo` returns the default
midnight target and cannot raise. -/
lemma obtener_hora_objetivo_none (ahora : Instante) :
    obtener_hora_objetivo ahora none = .ok ⟨medianochePorDefecto ahora, false⟩ := rfl

/-! ## Claims -/

/-- Claim C1, counterexample: with no override and the current time at
10:00 local (hour < 12), `obtener_hora_objetivo` returns the current day's
00:00:01 — an instant strictly before the current one — instead of rolling
to the next day, so the returned target is in the past at resolution
time. -/
theorem obtener_hora_objetivo_pasado_contraejemplo :
    obtener_hora_objetivo ⟨0, 36000000000⟩ none = .ok ⟨⟨0, 1000000⟩, false⟩ ∧
    Instante.ltb ⟨0, 1000000⟩ ⟨0, 36000000000⟩ = true :=
  ⟨rfl, rfl⟩

/-- Claim C1 as amended: only the override branch adjusts forward by one
day when the candidate time of day has already passed, so an override
target is always strictly in the future; the default target is tomorrow's
00:00:01 (strictly future) when the current hour is ≥ 12, and today's
00:00:01 — not adjusted, possibly already past — when the hour is < 12. -/
theorem obtener_hora_objetivo_enmendado (ahora : Instante) :
    (∀ s h m seg, s ≠ "" → parseHora s = .ok h m seg →
      ∃ o, obtener_hora_objetivo ahora (some s) = .ok o ∧
        Instante.ltb ahora o.objetivo = true) ∧
    (12 ≤ ahora.hora →
      obtener_hora_objetivo ahora none = .ok ⟨⟨ahora.dia + 1, 1000000⟩, false⟩ ∧
      Instante.ltb ahora ⟨ahora.dia + 1, 1000000⟩ = true) ∧
    (ahora.hora < 12 →
      obtener_hora_objetivo ahora none = .ok ⟨⟨ahora.dia, 1000000⟩, false⟩) := by
  have hdia : ∀ u : Nat, Instante.ltb ahora ⟨ahora.dia + 1, u⟩ = true := by
    intro u
    have hne : ¬ (ahora.dia = ahora.dia + 1) := by omega
    simp [Instante.ltb, hne]
  refine ⟨?_, ?_, ?_⟩
  · intro s h m seg hs hparse
    simp only [obtener_hora_objetivo, if_neg hs, hparse]
    by_cases hle : (Instante.deHMS ahora.dia h m seg).leb ahora = true
    · rw [if_pos hle]
      exact ⟨_, rfl, hdia _⟩
    · rw [if_neg hle]
      refine ⟨_, rfl, ?_⟩
      simp only [Instante.leb, Instante.deHMS, if_pos rfl, if_true,
        decide_eq_true_eq] at hle
      simp only [Instante.ltb, Instante.deHMS, if_pos rfl, if_true, decide_eq_true_eq]
      omega
  · intro h12
    refine ⟨?_, hdia _⟩
    rw [obtener_hora_objetivo_none]
    unfold medianochePorDefecto
    rw [if_pos h12]
  · intro h12
    have hn : ¬ 12 ≤ ahora.hora := by omega
    rw [obtener_hora_objetivo_none]
    unfold medianochePorDefecto
    rw [if_neg hn]

/-- Witness for the amended claim C1: at 13:53:20 local with no override the
target is the next day's 00:00:01, strictly in the future. -/
theorem obtener_hora_objetivo_enmendado_testigo :
    obtener_hora_objetivo ⟨0, 50000000000⟩ none = .ok ⟨⟨1, 1000000⟩, false⟩ ∧
    Instante.ltb ⟨0, 50000000000⟩ ⟨1, 1000000⟩ = true :=
  (obtener_hora_objetivo_enmendado ⟨0, 50000000000⟩).2.1 (by decide)

/-- Claim C2: the malformed override `"12"` (no `:` separator) makes
`obtener_hora_objetivo` raise an uncaught `IndexError` at `partes[1]` —
only `ValueError` is handled — so the run aborts instead of logging and
falling back to the default target. -/
theorem obtener_hora_objetivo_sin_dos_puntos :
    obtener_hora_objetivo ⟨0, 36000000000⟩ (some "12") =
      .error "IndexError: list index out of range" :=
  rfl

/-- Claim C3: if the first `N` load attempts of `navegar_con_reintentos`
fail and attempt `N + 1` succeeds (with `N + 1 ≤ max_reintentos`), the call
performs exactly `N + 1` attempts, returns `True`, and sleeps the backoff
sequence `min(2 ^ k, 15)` for `k = 1 .. N`; and if every attempt fails, it
raises the error naming the attempt count after exactly `max_reintentos`
attempts. -/
theorem navegar_con_reintentos_conteo (carga : Nat → Bool) (max_reintentos : Nat) :
    (∀ N, N + 1 ≤ max_reintentos →
      (∀ k, k ≤ N → 1 ≤ k → carga k = false) → carga (N + 1) = true →
      navegar_con_reintentos carga max_reintentos =
        ⟨.exito, N + 1, (List.range N).map (fun k => min (2 ^ (k + 1)) 15)⟩) ∧
    (1 ≤ max_reintentos →
      (∀ k, k ≤ max_reintentos → 1 ≤ k → carga k = false) →
      navegar_con_reintentos carga max_reintentos =
        ⟨.excepcion max_reintentos, max_reintentos,
          (List.range (max_reintentos - 1)).map (fun k => min (2 ^ (k + 1)) 15)⟩) := by
  constructor
  · intro N hN hfail hok
    unfold navegar_con_reintentos
    rw [navegar_go_exito carga max_reintentos N 1 max_reintentos (by omega) (by omega)
      (fun k hk1 hk2 => hfail k (by omega) hk1) (by rw [← hok]; congr 1; omega)]
    have hmapa : (List.range N).map (fun j => min (2 ^ (1 + j)) 15) =
        (List.range N).map (fun k => min (2 ^ (k + 1)) 15) :=
      List.map_congr_left fun j _ => by rw [Nat.add_comm 1 j]
    rw [hmapa]
  · intro h1 hfail
    unfold navegar_con_reintentos
    rw [navegar_go_fracaso carga max_reintentos max_reintentos 1 (le_refl _) h1 (by omega)
      (fun k hk1 hk2 => hfail k hk2 hk1)]
    have e1 : max_reintentos - 1 + 1 = max_reintentos := by omega
    rw [e1]
    have hmapa : (List.range (max_reintentos - 1)).map (fun j => min (2 ^ (1 + j)) 15) =
        (List.range (max_reintentos - 1)).map (fun k => min (2 ^ (k + 1)) 15) :=
      List.map_congr_left fun j _ => by rw [Nat.add_comm 1 j]
    rw [hmapa]

/-- Witness for claim C3: two failures then success, with the default bound
5, gives three attempts, success, and sleeps 2 then 4 seconds. -/
theorem navegar_con_reintentos_conteo_testigo :
    navegar_con_reintentos (fun k => decide (k = 3)) 5 = ⟨.exito, 3, [2, 4]⟩ :=
  (navegar_con_reintentos_conteo (fun k => decide (k = 3)) 5).1 2 (by decide)
    (by decide) (by decide)

/-- Claim C4: once the elapsed time read at the loop head of
`enviar_formulario_con_reintentos` meets or exceeds `TIMEOUT_TOTAL`
(900 s), the call returns `None` with zero further submit attempts and no
further sleeps, whatever the attempt number reached so far and whatever the
(possibly deterministic, identical) failure behaviour of the remaining
attempts would be: the loop is time-bounded, not attempt-count-bounded. -/
theorem enviar_formulario_presupuesto_agotado (reloj : Nat → Int) (descarga : Nat → Bool)
    (inicio : Int) (intento cIdx fuel : Nat) (hfuel : 1 ≤ fuel)
    (h : TIMEOUT_TOTAL ≤ reloj cIdx - inicio) :
    enviar_go reloj descarga inicio intento cIdx fuel = some ⟨none, 0, []⟩ := by
  obtain ⟨f, rfl⟩ : ∃ f, fuel = f + 1 := ⟨fuel - 1, by omega⟩
  unfold enviar_go
  simp [h]

/-- Witness for claim C4: a clock already at 900 s with every download
failing returns an absent result at once, even deep into the attempt
sequence. -/
theorem enviar_formulario_presupuesto_agotado_testigo :
    enviar_go (fun _ => (900 : Int)) (fun _ => false) 0 7 3 1 = some ⟨none, 0, []⟩ :=
  enviar_formulario_presupuesto_agotado (fun _ => (900 : Int)) (fun _ => false) 0 7 3 1
    (by decide) (by decide)

/-- Claim C5: `calcular_proximo_miercoles` returns a day strictly after the
current one that falls on a Wednesday, advancing exactly 7 days when today
is a Wednesday and the minimal positive advance (between 1 and 6 days)
otherwise; no intermediate day is a Wednesday. -/
theorem calcular_proximo_miercoles_estricto (dia : Nat) :
    dia < calcular_proximo_miercoles dia ∧
    calcular_proximo_miercoles dia % 7 = 2 ∧
    calcular_proximo_miercoles dia - dia ≤ 7 ∧
    (dia % 7 = 2 → calcular_proximo_miercoles dia - dia = 7) ∧
    (dia % 7 ≠ 2 → 1 ≤ calcular_proximo_miercoles dia - dia ∧
      calcular_proximo_miercoles dia - dia ≤ 6) ∧
    (∀ e, 0 < e → e < calcular_proximo_miercoles dia - dia → (dia + e) % 7 ≠ 2) := by
  have h7 : dia % 7 < 7 := Nat.mod_lt _ (by omega)
  simp only [calcular_proximo_miercoles]
  refine ⟨?_, ?_, ?_, ?_, ?_, ?_⟩ <;> split <;> omega

/-- Witness for claim C5: from a Wednesday (day 2 of the Monday-based
epoch) the function advances a full week, and day 2 + 3 is not a
Wednesday. -/
theorem calcular_proximo_miercoles_estricto_testigo :
    calcular_proximo_miercoles 2 - 2 = 7 ∧ (2 + 3) % 7 ≠ 2 :=
  ⟨(calcular_proximo_miercoles_estricto 2).2.2.2.1 rfl,
   (calcular_proximo_miercoles_estricto 2).2.2.2.2.2 3 (by decide) (by decide)⟩

/-- Claim C6: when the constraint reads performed by
`esperar_turnos_disponibles` first satisfy the target date on the `k`-th
read — navigation succeeding and the 300 s budget not expiring before
then — the call returns `True` after exactly `k` reads and `k - 1`
inter-poll sleeps. -/
theorem esperar_turnos_conteo (nav : Nat → Bool) (maxAttr : Nat → Option String)
    (reloj : Nat → Int) (objetivo : String) (k fuel : Nat)
    (hk : 1 ≤ k) (hfuel : k ≤ fuel)
    (hnav : ∀ j, j ≤ k → 1 ≤ j → nav j = true)
    (hmiss : ∀ j, j ≤ k - 1 → 1 ≤ j → fechaPermitida (maxAttr j) objetivo = false)
    (hhit : fechaPermitida (maxAttr k) objetivo = true)
    (hreloj : ∀ j, j ≤ k - 1 → 1 ≤ j → reloj j - reloj 0 < MAX_ESPERA_TURNOS) :
    esperar_turnos_disponibles nav maxAttr reloj objetivo fuel =
      some ⟨.disponibles, k, k - 1⟩ := by
  obtain ⟨n, rfl⟩ : ∃ n, k = n + 1 := ⟨k - 1, by omega⟩
  unfold esperar_turnos_disponibles
  rw [show (1 : Nat) = 0 + 1 from rfl]
  rw [esperar_go_disponibles nav maxAttr reloj objetivo (reloj 0) n 0 fuel (by omega)
    (fun j hj1 hj2 => hnav j (by omega) (by omega))
    (fun j hj1 hj2 => hmiss j (by omega) (by omega))
    (by rw [← hhit]; congr 2; omega)
    (fun j hj1 hj2 => hreloj j (by omega) (by omega))]
  simp

/-- Witness for claim C6: a first read bounded below the target and a
second read equal to it give success after two reads and one sleep. -/
theorem esperar_turnos_conteo_testigo :
    esperar_turnos_disponibles (fun _ => true)
      (fun j => if j = 1 then some "2026-02-18" else some "2026-02-25")
      (fun i => (i : Int)) "2026-02-25" 2 = some ⟨.disponibles, 2, 1⟩ :=
  esperar_turnos_conteo (fun _ => true)
    (fun j => if j = 1 then some "2026-02-18" else some "2026-02-25")
    (fun i => (i : Int)) "2026-02-25" 2 2 (by decide) (by decide)
    (by decide) (by decide) (by decide) (by decide)

/-- Claim C7: each poll of `esperar_turnos_disponibles` declares the target
date selectable exactly when the `max` attribute is absent (no restriction,
success regardless of the target) or is lexicographically greater than or
equal to the ISO target date string. -/
theorem fechaPermitida_lexicografica (m : Option String) (objetivo : String) :
    fechaPermitida m objetivo = true ↔
      (m = none ∨ ∃ s, m = some s ∧ objetivo ≤ s) := by
  cases m with
  | none => simp [fechaPermitida]
  | some s =>
    simp only [fechaPermitida, reduceCtorEq, Option.some.injEq, false_or]
    rw [pyStrGe_iff_le]
    constructor
    · exact fun h => ⟨s, rfl, h⟩
    · rintro ⟨s', rfl, h⟩
      exact h

/-- Claim C8: `esperar_hasta_hora_objetivo` returns immediately when the
remaining time is ≤ 0 and raises the fatal configuration error when it
exceeds the 300 s ceiling — in production mode this aborts `run()` before
any browser action — and only strictly positive remainders within the
ceiling make it wait. -/
theorem esperar_hasta_hora_objetivo_decision (s : ℚ) (acciones : List AccionPagina) :
    (s ≤ 0 → decidir_espera s = .inmediato) ∧
    (300 < s → decidir_espera s = .errorConfig ∧
      run_secuencia false s acciones = .error "Demasiado tiempo de espera") ∧
    (0 < s → s ≤ 300 → decidir_espera s = .espera) := by
  refine ⟨fun h => ?_, fun h => ?_, fun h1 h2 => ?_⟩
  · simp [decidir_espera, h]
  · have h0 : ¬ s ≤ 0 := by linarith
    have hd : decidir_espera s = .errorConfig := by simp [decidir_espera, h, h0]
    exact ⟨hd, by simp [run_secuencia, hd]⟩
  · have h0 : ¬ s ≤ 0 := by linarith
    have h3 : ¬ 300 < s := by linarith
    simp [decidir_espera, h0, h3]

/-- Witness for claim C8: 301 remaining seconds raise the configuration
error and the run aborts with no page action. -/
theorem esperar_hasta_hora_objetivo_decision_testigo :
    decidir_espera 301 = .errorConfig ∧
    run_secuencia false 301 [] = .error "Demasiado tiempo de espera" :=
  (esperar_hasta_hora_objetivo_decision 301 []).2.1 (by decide)

/-- Claim C9: `preparar_formulario` performs no navigation: its action
trace contains zero `page.goto` calls, only field fills and option
selections. -/
theorem preparar_formulario_sin_navegacion (fecha : Fecha) :
    ((preparar_formulario fecha).1.countP AccionPagina.esGoto = 0) ∧
    ((preparar_formulario fecha).1.all (fun a => !a.esGoto) = true) :=
  ⟨rfl, rfl⟩

/-- Claim C10: when `RESEND_API_KEY` or `EMAIL_DESTINATARIO` is unset or
empty, `enviar_email` returns `False` and performs no action at all — it
neither reads the PDF artifact nor attempts a send, and it does not
raise. -/
theorem enviar_email_sin_credenciales (apiKey dest : Option String) (pdf : String)
    (envio : Nat → Bool) (h : pyTruthy apiKey = false ∨ pyTruthy dest = false) :
    enviar_email apiKey dest pdf envio = (false, []) := by
  unfold enviar_email
  rcases h with h | h <;> simp [h]

/-- Witness for claim C10: with the API key unset the notification step is
skipped entirely. -/
theorem enviar_email_sin_credenciales_testigo :
    enviar_email none (some "a@b.com") "turno.pdf" (fun _ => true) = (false, []) :=
  enviar_email_sin_credenciales none (some "a@b.com") "turno.pdf" (fun _ => true)
    (Or.inl rfl)
